import Mathlib

/-!
# Activity Quality-Control and Scoring Engine — verification

Shallow embedding of the QC validator (`validateActivity`, frontend QC module)
and the scoring / streak-accrual logic (`calculateCalories`, `calculatePoints`,
`updateUserProgress`, the `/activities` route's profile update, and the Strava
bulk-import profile update) of the Kinnect repository.

Modelling conventions:
* JavaScript numbers are modelled as `ℚ`; `Math.round x` is `⌊x + 1/2⌋`
  (exactly JavaScript's round-half-up semantics, sign included).
* Calendar dates are modelled as day numbers in `ℤ`; equality of canonical
  ISO `YYYY-MM-DD` strings coincides with equality of day numbers, and the
  millisecond difference `86400000` between two such dates is day
  difference `1`.  A `null`/absent date is `Option.none`.
* The candidate's `date` string is only ever inspected through
  `new Date(date)` compared against "now"; the four mutually exclusive
  outcomes of that inspection are reified as `DateParse`
  (`invalid`/`future`/`old`/`recent`), with `none` for a falsy
  (absent / null / empty-string) field.
* JavaScript number-to-string interpolation in messages built from runtime
  values is rendered through `numStr`; messages interpolating only the
  constant rule table render exactly as in the source.
* The `&&`-truthiness guard on table lookups
  (`if (activityMax && x > activityMax)`) is kept verbatim: a looked-up
  bound of `0` is falsy and disables the check.
-/

/-- JavaScript `Math.round`: round half up, `Math.round x = ⌊x + 1/2⌋`. -/
def jsRound (q : ℚ) : ℤ := ⌊q + 1/2⌋

/-- `type.toLowerCase()`: ASCII lowercasing character by character (the
activity-type strings are ASCII). -/
def jsToLower (s : String) : String := ⟨s.data.map Char.toLower⟩

/-- Stand-in for JavaScript's number-to-string conversion; exact on the
integral constants that appear in the QC rule messages. -/
def numStr (q : ℚ) : String :=
  if q.den = 1 then toString q.num else toString q

/-- Outcome of inspecting a present `date` field against "now"
(`new Date(date)` vs `today` / `oneYearAgo`):
unparsable, strictly in the future, more than one year old, or recent. -/
inductive DateParse where
  | invalid : DateParse
  | future : DateParse
  | old : DateParse
  | recent : DateParse
deriving DecidableEq, Repr

/-- `ActivityCandidate`: argument of `validateActivity`.  `type = none`
models a falsy (missing / null / empty-string) `activity.type`; the numeric
fields carry the destructuring defaults (`distanceKm = 0`,
`durationMinutes = 0`) already applied. -/
structure Activity where
  type : Option String
  distanceKm : ℚ
  durationMinutes : ℚ
  date : Option DateParse
deriving DecidableEq, Repr

/-- Derived metrics of the validation result (`speedKmh`, `paceMinPerKm`),
`none` components when distance or duration is not strictly positive. -/
structure Metrics where
  speedKmh : Option ℚ
  paceMinPerKm : Option ℚ
deriving DecidableEq, Repr

/-- Result of `validateActivity`; `metrics = none` models the early return
(which has no `metrics` key at all). -/
structure ValidationResult where
  valid : Bool
  errors : List String
  warnings : List String
  metrics : Option Metrics
deriving DecidableEq, Repr

/-- `QC_RULES.duration` global bounds. -/
def durationMin : ℚ := 1
def durationMax : ℚ := 1440

/-- `QC_RULES.duration.activityMax` lookup table. -/
def durationActivityMax : String → Option ℚ
  | "run" => some 480
  | "walk" => some 600
  | "workout" => some 180
  | "bike" => some 600
  | "swim" => some 240
  | _ => none

/-- `QC_RULES.distance` global bounds. -/
def distanceMin : ℚ := 1/100
def distanceMax : ℚ := 500

/-- `QC_RULES.distance.activityMax` lookup table (note `workout ↦ 0`). -/
def distanceActivityMax : String → Option ℚ
  | "run" => some 100
  | "walk" => some 80
  | "workout" => some 0
  | "bike" => some 500
  | "swim" => some 50
  | _ => none

/-- `QC_RULES.speed.min` and `QC_RULES.speed.max` lookup table. -/
def speedMin : ℚ := 1/2

def speedMax : String → Option ℚ
  | "run" => some 25
  | "walk" => some 8
  | "workout" => some 0
  | "bike" => some 60
  | "swim" => some 10
  | _ => none

/-- `QC_RULES.pace.max` lookup table. -/
def paceMax : String → Option ℚ
  | "run" => some 20
  | "walk" => some 30
  | _ => none

/-- `validTypes` array of `validateActivity`. -/
def validTypes : List String :=
  ["run", "walk", "workout", "bike", "swim", "hike", "yoga", "other"]

def invalidTypeMsg (t : String) : String :=
  "Invalid activity type: " ++ t ++
    ". Valid types: run, walk, workout, bike, swim, hike, yoga, other"

def durationCapMsg (ty : String) (m : ℚ) : String :=
  ty ++ " duration cannot exceed " ++ numStr m ++ " minutes"

def distanceCapMsg (ty : String) (m : ℚ) : String :=
  ty ++ " distance cannot exceed " ++ numStr m ++ " km"

def smallDistanceMsg (d : ℚ) : String :=
  "Distance is very small (" ++ numStr d ++ " km). Did you mean to enter this?"

def speedCapMsg (ty : String) (s m : ℚ) : String :=
  ty ++ " speed (" ++ numStr s ++ " km/h) exceeds maximum reasonable speed (" ++
    numStr m ++ " km/h)"

def slowSpeedMsg (s : ℚ) : String :=
  "Very slow speed (" ++ numStr s ++ " km/h). Is this correct?"

def slowPaceMsg (p : ℚ) : String :=
  "Very slow pace (" ++ numStr p ++ " min/km). Is this correct?"

def workoutDistanceMsg : String :=
  "Workout activities typically don\x27t have distance. Did you mean a different activity type?"

def fastLongRunMsg : String :=
  "Very fast pace for a long distance. Please verify the data."

def walkFastMsg : String :=
  "Speed suggests running rather than walking. Please verify the activity type."

def estimateDurationMsg : String :=
  "Distance provided but no duration. Duration will be estimated."

def zeroDistanceMsg : String :=
  "Duration provided but no distance. Distance-based points will be zero."

/-- Type-membership check (`validTypes.includes(type.toLowerCase())`). -/
def typeErrors (t : String) : List String :=
  if validTypes.contains (jsToLower t) then [] else [invalidTypeMsg t]

/-- Date-section errors: the `if (date) { ... }` block's error pushes. -/
def dateErrors : Option DateParse → List String
  | some DateParse.invalid => ["Invalid date format"]
  | some DateParse.future => ["Activity date cannot be in the future"]
  | _ => []

/-- Date-section warnings: the more-than-one-year-ago advisory. -/
def dateWarnings : Option DateParse → List String
  | some DateParse.old => ["Activity date is more than one year ago"]
  | _ => []

/-- Global duration checks (the `if/else if` chain on `durationMinutes`). -/
def durationErrors (dur dist : ℚ) : List String :=
  if dur < 0 then ["Duration cannot be negative"]
  else if dur = 0 ∧ dist = 0 then ["Either duration or distance must be provided"]
  else if dur < durationMin then ["Duration must be at least 1 minute(s)"]
  else if dur > durationMax then ["Duration cannot exceed 1440 minutes (24 hours)"]
  else []

/-- Activity-specific duration cap
(`if (activityMaxDuration && durationMinutes > activityMaxDuration)`).
The truthiness guard disables a bound of `0`. -/
def activityDurationErrors (ty : String) (dur : ℚ) : List String :=
  match durationActivityMax ty with
  | some m => if ¬ m = 0 ∧ dur > m then [durationCapMsg ty m] else []
  | none => []

/-- Global distance checks: errors of the `if/else if` chain on `distanceKm`
(the very-small branch produces a warning, so is empty here). -/
def distanceErrors (dist : ℚ) : List String :=
  if dist < 0 then ["Distance cannot be negative"]
  else if dist > 0 ∧ dist < distanceMin then []
  else if dist > distanceMax then ["Distance cannot exceed 500 km"]
  else []

/-- Global distance checks: the very-small-distance warning branch. -/
def distanceWarnings (dist : ℚ) : List String :=
  if dist < 0 then []
  else if dist > 0 ∧ dist < distanceMin then [smallDistanceMsg dist]
  else []

/-- Activity-specific distance cap
(`if (activityMaxDistance && distanceKm > activityMaxDistance)`).
The truthiness guard disables a bound of `0` — so the `workout ↦ 0` entry
never fires. -/
def activityDistanceErrors (ty : String) (dist : ℚ) : List String :=
  match distanceActivityMax ty with
  | some m => if ¬ m = 0 ∧ dist > m then [distanceCapMsg ty m] else []
  | none => []

/-- Speed-section error (`maxSpeed && speedKmh > maxSpeed`), evaluated only
when both distance and duration are strictly positive. -/
def speedErrors (ty : String) (dist dur : ℚ) : List String :=
  if dist > 0 ∧ dur > 0 then
    let speed := dist / dur * 60
    match speedMax ty with
    | some m => if ¬ m = 0 ∧ speed > m then [speedCapMsg ty speed m] else []
    | none => []
  else []

/-- Pace advisory for run/walk
(`(run || walk) && paceMinPerKm > QC_RULES.pace.max[activityType]`). -/
def paceWarnPart (ty : String) (pace : ℚ) : List String :=
  match paceMax ty with
  | some m => if (ty = "run" ∨ ty = "walk") ∧ pace > m then [slowPaceMsg pace] else []
  | none => []

/-- Speed-section warnings in push order: slow speed, slow pace, workout
with distance, fast long run, fast walk — all guarded by
`distanceKm > 0 && durationMinutes > 0`. -/
def speedWarnings (ty : String) (dist dur : ℚ) : List String :=
  if dist > 0 ∧ dur > 0 then
    let speed := dist / dur * 60
    let pace := dur / dist
    (if speed < speedMin then [slowSpeedMsg speed] else [])
      ++ paceWarnPart ty pace
      ++ (if ty = "workout" ∧ dist > 0 then [workoutDistanceMsg] else [])
      ++ (if ty = "run" ∧ speed > 20 ∧ dist > 10 then [fastLongRunMsg] else [])
      ++ (if ty = "walk" ∧ speed > 6 then [walkFastMsg] else [])
  else []

/-- Trailing advisories for asymmetric input (distance without duration,
duration without distance for run/walk/bike). -/
def asymmetryWarnings (ty : String) (dist dur : ℚ) : List String :=
  (if dist > 0 ∧ dur = 0 then [estimateDurationMsg] else [])
    ++ (if dur > 0 ∧ dist = 0 ∧ (ty = "run" ∨ ty = "walk" ∨ ty = "bike")
        then [zeroDistanceMsg] else [])

/-- The QC module's `validateActivity`.  Missing type returns immediately;
otherwise the sections run in program order, each appending to `errors` or
`warnings`, and `valid` is `errors.length === 0`. -/
def validateActivity (a : Activity) : ValidationResult :=
  match a.type with
  | none =>
      { valid := false, errors := ["Activity type is required"],
        warnings := [], metrics := none }
  | some t =>
      let ty := jsToLower t
      let errors :=
        typeErrors t
          ++ dateErrors a.date
          ++ durationErrors a.durationMinutes a.distanceKm
          ++ activityDurationErrors ty a.durationMinutes
          ++ distanceErrors a.distanceKm
          ++ activityDistanceErrors ty a.distanceKm
          ++ speedErrors ty a.distanceKm a.durationMinutes
      let warnings :=
        dateWarnings a.date
          ++ distanceWarnings a.distanceKm
          ++ speedWarnings ty a.distanceKm a.durationMinutes
          ++ asymmetryWarnings ty a.distanceKm a.durationMinutes
      { valid := errors.isEmpty, errors := errors, warnings := warnings,
        metrics := some
          { speedKmh :=
              if a.distanceKm > 0 ∧ a.durationMinutes > 0
              then some (a.distanceKm / a.durationMinutes * 60) else none,
            paceMinPerKm :=
              if a.distanceKm > 0 ∧ a.durationMinutes > 0
              then some (a.durationMinutes / a.distanceKm) else none } }

/-! ## Scoring and streak accrual (backend server) -/

/-- Argument of `calculateCalories` / `calculatePoints`: the raw fields the
backend destructures from the request (`type` may be absent, hitting the
`switch` default). -/
structure ScoredActivity where
  type : Option String
  distanceKm : ℚ
  durationMinutes : ℚ
deriving DecidableEq, Repr

/-- `calculateCalories`: MET model with fixed 70 kg body mass, switching on
the raw `type` string; `Math.round` applied in every branch. -/
def calculateCalories (a : ScoredActivity) : ℤ :=
  if a.type = some "run" then jsRound (70 * a.distanceKm)
  else if a.type = some "walk" then jsRound (70 * a.distanceKm * (1/2))
  else if a.type = some "workout" then jsRound (6 * 70 * (a.durationMinutes / 60))
  else jsRound (5 * 70 * (a.durationMinutes / 60))

/-- `calculatePoints`: `Math.max(1, Math.round(calories / 10))`. -/
def calculatePoints (a : ScoredActivity) : ℤ :=
  max 1 (jsRound ((calculateCalories a : ℚ) / 10))

/-- In-memory user record as touched by `updateUserProgress`
(`points`, `streak`, `lastActivityDate`; `none` models `null`/unset). -/
structure UserProgress where
  points : ℤ
  streak : ℤ
  lastActivityDate : Option ℤ
deriving DecidableEq, Repr

/-- `updateUserProgress(user, activityPoints, date)`.  `yesterday` is the
ambient value `new Date(Date.now() - 86400000)` sliced to a calendar day —
it derives from the server's clock, not from `date`. -/
def updateUserProgress (u : UserProgress) (activityPoints : ℤ) (date yesterday : ℤ) :
    UserProgress :=
  let streak :=
    if u.lastActivityDate = some date then u.streak
    else if u.lastActivityDate = some yesterday then u.streak + 1
    else 1
  { points := u.points + activityPoints, streak := streak,
    lastActivityDate := some date }

/-- Fold of the legacy activity-logging loop: each `(activity, date)` pair is
scored with `calculatePoints` and applied with `updateUserProgress`. -/
def processActivities (yesterday : ℤ) (u : UserProgress)
    (l : List (ScoredActivity × ℤ)) : UserProgress :=
  l.foldl (fun p a => updateUserProgress p (calculatePoints a.1) a.2 yesterday) u

/-- A `profiles` row as read by the `/activities` and import routes
(`points`, `streak`, `last_activity_date` may each be SQL `null`). -/
structure ProfileRow where
  points : Option ℤ
  streak : Option ℤ
  last_activity_date : Option ℤ
deriving DecidableEq, Repr

/-- The profile update of `app.post('/activities')` (Supabase branch):
`newStreak` starts from `profile.streak || 0`, compares
`profile.last_activity_date` against the submitted `date` and against the
server-clock `yesterday`, and the row is written back with
`points + pointsEarned` and `last_activity_date = date`. -/
def postActivityProfileUpdate (p : ProfileRow) (points date yesterday : ℤ) :
    ProfileRow :=
  let s0 := p.streak.getD 0
  let newStreak :=
    if p.last_activity_date = some date then s0
    else if p.last_activity_date = some yesterday then s0 + 1
    else 1
  { points := some (p.points.getD 0 + points), streak := some newStreak,
    last_activity_date := some date }

/-- A submission to `POST /activities`, carrying the fields relevant both to
validation (`dateParse`: the date string as the validator classifies it) and
to the streak bookkeeping (`dateDay`: the same date as a day number). -/
structure Submission where
  type : Option String
  distanceKm : ℚ
  durationMinutes : ℚ
  dateParse : Option DateParse
  dateDay : ℤ
deriving DecidableEq, Repr

/-- The `ActivityCandidate` view of a submission, as `validateActivity`
would receive it. -/
def submissionCandidate (s : Submission) : Activity :=
  { type := s.type, distanceKm := s.distanceKm,
    durationMinutes := s.durationMinutes, date := s.dateParse }

/-- The `app.post('/activities')` pipeline (Supabase branch, happy path):
computes `points = calculatePoints({type, distanceKm, durationMinutes})`
unconditionally and applies the profile update; returns the updated profile
row and the points stored on the activity record.  No call to
`validateActivity` occurs anywhere on this path. -/
def postActivityPipeline (s : Submission) (p : ProfileRow) (yesterday : ℤ) :
    ProfileRow × ℤ :=
  let pts := calculatePoints
    { type := s.type, distanceKm := s.distanceKm,
      durationMinutes := s.durationMinutes }
  (postActivityProfileUpdate p pts s.dateDay yesterday, pts)

/-- `imported.map(a => a.date).sort().reverse()[0]` for a non-empty batch
`d :: ds`: lexicographic sort of canonical ISO dates descending, first
element — i.e. the maximum date. -/
def mostRecentDate (d : ℤ) (ds : List ℤ) : ℤ := ds.foldl max d

/-- `last_activity_date && (newDate - lastDate) === 86400000`: the imported
batch's most recent date is exactly one day after the stored date. -/
def consecutiveDay (last : Option ℤ) (d : ℤ) : Bool :=
  match last with
  | some l => decide (d - l = 1)
  | none => false

/-- The profile update of `app.post('/api/activities/import-strava')` for a
non-empty imported batch with dates `d :: ds` and point total `totalPoints`:
a single streak transition keyed on the batch's most recent date (with the
extra consecutive-day fallback), executed once per batch. -/
def importProfileUpdate (p : ProfileRow) (d : ℤ) (ds : List ℤ)
    (totalPoints yesterday : ℤ) : ProfileRow :=
  let mostRecent := mostRecentDate d ds
  let s0 := p.streak.getD 0
  let newStreak :=
    if p.last_activity_date = some mostRecent then s0
    else if p.last_activity_date = some yesterday then s0 + 1
    else if consecutiveDay p.last_activity_date mostRecent then s0 + 1
    else 1
  { points := some (p.points.getD 0 + totalPoints), streak := some newStreak,
    last_activity_date := some mostRecent }

/-- Insertion step for sorting a date list ascending. -/
def insertSorted (x : ℤ) : List ℤ → List ℤ
  | [] => [x]
  | y :: ys => if x ≤ y then x :: y :: ys else y :: insertSorted x ys

/-- Ascending insertion sort of a date list. -/
def sortDates (l : List ℤ) : List ℤ := l.foldr insertSorted []

/-- Modelled from the spec (§4.2): the single-activity streak transition on
a `(streak, lastActivityDate)` pair — same day unchanged, `+1 day`
increments, anything else resets to 1 — used as the reference semantics for
the bulk-import refinement claim. -/
def specStreakStep : ℤ × Option ℤ → ℤ → ℤ × Option ℤ
  | (streak, some d), date =>
      if date = d then (streak, some d)
      else if date = d + 1 then (streak + 1, some date)
      else (1, some date)
  | (_, none), date => (1, some date)

/-- Modelled from the spec (§4.2, §9): the reference bulk-import streak
semantics — fold the single-activity transition over the batch's distinct
dates in ascending order. -/
def specBatchStreak (start : ℤ × Option ℤ) (dates : List ℤ) : ℤ × Option ℤ :=
  ((sortDates dates).dedup).foldl specStreakStep start

theorem jsToLower_run : jsToLower "run" = "run" := by decide
theorem jsToLower_walk : jsToLower "walk" = "walk" := by decide
theorem jsToLower_workout : jsToLower "workout" = "workout" := by decide

example : (validateActivity ⟨some "run", 5, 30, none⟩).valid = true := by
  simp only [validateActivity, jsToLower_run]
  norm_num [typeErrors, dateErrors, durationErrors, activityDurationErrors,
    distanceErrors, activityDistanceErrors, speedErrors,
    durationActivityMax, distanceActivityMax, speedMax, validTypes,
    durationMin, durationMax, distanceMin, distanceMax, jsToLower_run]

example : (validateActivity ⟨some "workout", 3, 45, none⟩).valid = true := by
  simp only [validateActivity, jsToLower_workout]
  norm_num [typeErrors, dateErrors, durationErrors, activityDurationErrors,
    distanceErrors, activityDistanceErrors, speedErrors,
    durationActivityMax, distanceActivityMax, speedMax, validTypes,
    durationMin, durationMax, distanceMin, distanceMax, jsToLower_workout]

/-! ## Helper lemmas -/

theorem jsToLower_hike : jsToLower "hike" = "hike" := by decide

/-- `valid` is literally `errors.length === 0` on the main path and `false`
with a singleton error on the early-return path. -/
theorem validate_valid_eq (a : Activity) :
    (validateActivity a).valid = (validateActivity a).errors.isEmpty := by
  cases h : a.type <;> simp [validateActivity, h]

/-- Error-list decomposition of `validateActivity` on the main path. -/
theorem validate_errors_some (t : String) (dist dur : ℚ) (d : Option DateParse) :
    (validateActivity ⟨some t, dist, dur, d⟩).errors =
      typeErrors t ++ dateErrors d ++ durationErrors dur dist
        ++ activityDurationErrors (jsToLower t) dur
        ++ distanceErrors dist ++ activityDistanceErrors (jsToLower t) dist
        ++ speedErrors (jsToLower t) dist dur := rfl

/-- Warning-list decomposition of `validateActivity` on the main path. -/
theorem validate_warnings_some (t : String) (dist dur : ℚ) (d : Option DateParse) :
    (validateActivity ⟨some t, dist, dur, d⟩).warnings =
      dateWarnings d ++ distanceWarnings dist
        ++ speedWarnings (jsToLower t) dist dur
        ++ asymmetryWarnings (jsToLower t) dist dur := rfl

theorem valid_iff_errors_nil (a : Activity) :
    (validateActivity a).valid = true ↔ (validateActivity a).errors = [] := by
  rw [validate_valid_eq, List.isEmpty_iff]

theorem valid_eq_false_of_mem {a : Activity} {e : String}
    (h : e ∈ (validateActivity a).errors) : (validateActivity a).valid = false := by
  rw [validate_valid_eq]
  rcases hE : (validateActivity a).errors with _ | ⟨x, xs⟩
  · rw [hE] at h; cases h
  · rfl

theorem one_le_calculatePoints (a : ScoredActivity) : 1 ≤ calculatePoints a :=
  le_max_left 1 _

theorem processActivities_points (yesterday : ℤ) (l : List (ScoredActivity × ℤ)) :
    ∀ u : UserProgress, (processActivities yesterday u l).points
      = u.points + (l.map (fun a => calculatePoints a.1)).sum := by
  induction l with
  | nil => intro u; simp [processActivities]
  | cons hd tl ih =>
      intro u
      have hstep : processActivities yesterday u (hd :: tl)
          = processActivities yesterday
              (updateUserProgress u (calculatePoints hd.1) hd.2 yesterday) tl := rfl
      rw [hstep, ih]
      simp [updateUserProgress]
      ring

/-! ## Claim theorems -/

/-- C7: for every `ActivityCandidate`, the result of `validateActivity`
satisfies `valid = true` iff its `errors` sequence is empty (the early
return for a missing `activityType` has `valid = false` and a non-empty
`errors`). -/
theorem validateActivity_valid_iff_no_errors (a : Activity) :
    (validateActivity a).valid = true ↔ (validateActivity a).errors = [] :=
  valid_iff_errors_nil a

/-- C5: for every activity, `calculatePoints` is
`max(1, Math.round(calories / 10))` and is at least 1; calories of a run
are `Math.round(70 × distanceKm)`; in particular a 10 km run gives
700 calories and 70 points. -/
theorem calculatePoints_formula :
    (∀ a : ScoredActivity,
        calculatePoints a = max 1 (jsRound ((calculateCalories a : ℚ) / 10))
          ∧ 1 ≤ calculatePoints a)
    ∧ (∀ dist dur : ℚ,
        calculateCalories ⟨some "run", dist, dur⟩ = jsRound (70 * dist))
    ∧ calculateCalories ⟨some "run", 10, 30⟩ = 700
    ∧ calculatePoints ⟨some "run", 10, 30⟩ = 70 := by
  refine ⟨fun a => ⟨rfl, le_max_left 1 _⟩, fun dist dur => rfl, ?_, ?_⟩
  · norm_num [calculateCalories, jsRound]
  · norm_num [calculatePoints, calculateCalories, jsRound]

/-- C6: processing any sequence of activities against a `UserProgress`
yields `points` equal to the starting points plus the sum of the
activities' `pointsEarned`, hence points never decrease. -/
theorem points_monotonic_sum (yesterday : ℤ) (u : UserProgress)
    (l : List (ScoredActivity × ℤ)) :
    (processActivities yesterday u l).points
        = u.points + (l.map (fun a => calculatePoints a.1)).sum
    ∧ u.points ≤ (processActivities yesterday u l).points := by
  refine ⟨processActivities_points yesterday l u, ?_⟩
  rw [processActivities_points yesterday l u]
  have hnn : 0 ≤ (l.map (fun a => calculatePoints a.1)).sum := by
    apply List.sum_nonneg
    intro x hx
    rcases List.mem_map.mp hx with ⟨a, _, rfl⟩
    linarith [one_le_calculatePoints a.1]
  linarith

/-- C2 counterexample: with `lastActivityDate = day 100` and a new activity
dated day 101 (= D + 1), the streak does not increment when the server's
"yesterday" is some other day (here day 200): the code resets it to 1,
because it compares `lastActivityDate` against real-time yesterday, not
against the activity's date. -/
theorem streak_d_plus_one_counterexample :
    (updateUserProgress ⟨0, 5, some 100⟩ 7 (100 + 1) 200).streak = 1
    ∧ ((5 : ℤ) + 1) ≠ 1 := by decide

/-- C2 (amended): the streak step compares `lastActivityDate` to the
activity's date and to the server clock's "yesterday" — never to
`activityDate - 1`.  The three cases are exhaustive and mutually exclusive:
when `lastActivityDate` equals the activity date the streak is unchanged;
otherwise, when `lastActivityDate` equals the server's yesterday the streak
increments by 1 — regardless of the activity's own date, so an activity
dated `D + 1` with `lastActivityDate = D` increments only if `D` is the
server's yesterday, and even a backfilled older activity increments when
`lastActivityDate` happens to be yesterday; in every remaining case (gap,
null/unset history, or any other mismatch) the streak resets to 1.
`lastActivityDate` is then set to the activity date. -/
theorem streak_update_amended (u : UserProgress) (pts date yesterday : ℤ) :
    (u.lastActivityDate = some date →
        (updateUserProgress u pts date yesterday).streak = u.streak)
    ∧ (u.lastActivityDate ≠ some date → u.lastActivityDate = some yesterday →
        (updateUserProgress u pts date yesterday).streak = u.streak + 1)
    ∧ (u.lastActivityDate ≠ some date → u.lastActivityDate ≠ some yesterday →
        (updateUserProgress u pts date yesterday).streak = 1)
    ∧ (updateUserProgress u pts date yesterday).lastActivityDate = some date := by
  refine ⟨?_, ?_, ?_, rfl⟩
  · intro h1
    simp only [updateUserProgress]
    rw [if_pos h1]
  · intro h1 h2
    simp only [updateUserProgress]
    rw [if_neg h1, if_pos h2]
  · intro h1 h2
    simp only [updateUserProgress]
    rw [if_neg h1, if_neg h2]

theorem streak_update_amended_witness :
    (updateUserProgress ⟨0, 4, some 8⟩ 1 8 7).streak = 4
    ∧ (updateUserProgress ⟨0, 2, some 7⟩ 1 8 7).streak = 2 + 1
    ∧ (updateUserProgress ⟨5, 6, some 200⟩ 1 150 200).streak = 6 + 1
    ∧ (updateUserProgress ⟨3, 2, some 7⟩ 1 20 15).streak = 1 :=
  ⟨(streak_update_amended ⟨0, 4, some 8⟩ 1 8 7).1 rfl,
   (streak_update_amended ⟨0, 2, some 7⟩ 1 8 7).2.1 (by decide) rfl,
   (streak_update_amended ⟨5, 6, some 200⟩ 1 150 200).2.1 (by decide) rfl,
   (streak_update_amended ⟨3, 2, some 7⟩ 1 20 15).2.2.1 (by decide) (by decide)⟩

/-- C4: the bulk-import profile update applies a single streak transition
keyed on the batch's most recent date, not a fold over the distinct days:
importing days 10, 11, 12 into an empty history yields streak 1, while the
spec's per-distinct-day chronological fold yields 3. -/
theorem import_streak_not_per_day_fold :
    (importProfileUpdate ⟨some 0, some 0, none⟩ 10 [11, 12] 9 (-5)).streak = some 1
    ∧ (specBatchStreak (0, none) [10, 11, 12]).1 = 3
    ∧ (importProfileUpdate ⟨some 0, some 0, none⟩ 10 [11, 12] 9 (-5)).streak
        ≠ some (specBatchStreak (0, none) [10, 11, 12]).1 := by decide

/-- Any run candidate with distance 150 carries the run distance-cap error,
whatever its duration and date. -/
theorem run150_distance_error_mem (dur : ℚ) (d : Option DateParse) :
    distanceCapMsg "run" 100 ∈ (validateActivity ⟨some "run", 150, dur, d⟩).errors := by
  have h6 : activityDistanceErrors "run" 150 = [distanceCapMsg "run" 100] := by
    norm_num [activityDistanceErrors, distanceActivityMax]
  rw [validate_errors_some, jsToLower_run, h6]
  simp [List.mem_append]

/-- C8: a run candidate with `distanceKm = 150` is rejected, and an error
message naming the 100 km run cap ("run distance cannot exceed 100 km") is
among the errors. -/
theorem run150_rejected (dur : ℚ) (d : Option DateParse) :
    (validateActivity ⟨some "run", 150, dur, d⟩).valid = false
    ∧ "run distance cannot exceed 100 km"
        ∈ (validateActivity ⟨some "run", 150, dur, d⟩).errors := by
  have hm := run150_distance_error_mem dur d
  have hmsg : distanceCapMsg "run" 100 = "run distance cannot exceed 100 km" := by decide
  exact ⟨valid_eq_false_of_mem hm, hmsg ▸ hm⟩

/-- C3: the `/activities` pipeline never consults the validator — for the
submission `{type: "run", distanceKm: 150, durationMinutes: 60}` the
validation result has non-empty errors, yet the route computes
`pointsEarned = 1050` and writes the profile with the points added, so
the claim that error-bearing submissions are never scored is false of the
code. -/
theorem pipeline_scores_despite_errors :
    (validateActivity (submissionCandidate ⟨some "run", 150, 60, some DateParse.recent, 5⟩)).errors ≠ []
    ∧ (postActivityPipeline ⟨some "run", 150, 60, some DateParse.recent, 5⟩
        ⟨some 0, some 0, none⟩ 0).2 = 1050
    ∧ (postActivityPipeline ⟨some "run", 150, 60, some DateParse.recent, 5⟩
        ⟨some 0, some 0, none⟩ 0).1.points = some 1050 := by
  refine ⟨List.ne_nil_of_mem (run150_distance_error_mem 60 (some DateParse.recent)), ?_, ?_⟩
  · norm_num [postActivityPipeline, calculatePoints, calculateCalories, jsRound]
  · norm_num [postActivityPipeline, postActivityProfileUpdate, calculatePoints,
      calculateCalories, jsRound]

/-- C1: a workout with positive distance is NOT rejected — the `workout ↦ 0`
distance cap is disabled by the `activityMaxDistance &&` truthiness guard
(0 is falsy), so `{type: "workout", distanceKm: 3, durationMinutes: 45}`
comes back `valid = true` with no errors and only the heuristic warning. -/
theorem workout_distance_cap_never_fires :
    (validateActivity ⟨some "workout", 3, 45, none⟩).valid = true
    ∧ (validateActivity ⟨some "workout", 3, 45, none⟩).errors = []
    ∧ (validateActivity ⟨some "workout", 3, 45, none⟩).warnings
        = [workoutDistanceMsg] := by
  have herr : (validateActivity ⟨some "workout", 3, 45, none⟩).errors = [] := by
    rw [validate_errors_some, jsToLower_workout]
    norm_num [typeErrors, jsToLower_workout, validTypes, dateErrors,
      durationErrors, durationMin, durationMax,
      activityDurationErrors, durationActivityMax,
      distanceErrors, distanceMin, distanceMax,
      activityDistanceErrors, distanceActivityMax,
      speedErrors, speedMax]
  refine ⟨?_, herr, ?_⟩
  · rw [validate_valid_eq, herr]; rfl
  · rw [validate_warnings_some, jsToLower_workout]
    have hp : paceMax "workout" = none := rfl
    norm_num [dateWarnings, distanceWarnings, distanceMin,
      speedWarnings, speedMin, paceWarnPart, hp, asymmetryWarnings]

/-- C9: zero duration always blocks.  With a type present and positive
distance, the global minimum-duration error fires (alongside the advisory
that the duration will be estimated); and any candidate whatsoever with
`durationMinutes = 0` has non-empty errors. -/
theorem zero_duration_rejected :
    (∀ (t : String) (dist : ℚ) (d : Option DateParse), 0 < dist →
      (validateActivity ⟨some t, dist, 0, d⟩).valid = false
      ∧ "Duration must be at least 1 minute(s)"
          ∈ (validateActivity ⟨some t, dist, 0, d⟩).errors
      ∧ estimateDurationMsg ∈ (validateActivity ⟨some t, dist, 0, d⟩).warnings)
    ∧ ∀ a : Activity, a.durationMinutes = 0 → (validateActivity a).errors ≠ [] := by
  have hdur : ∀ dist : ℚ, dist ≠ 0 →
      durationErrors 0 dist = ["Duration must be at least 1 minute(s)"] := by
    intro dist hne
    norm_num [durationErrors, durationMin, hne]
  constructor
  · intro t dist d hdist
    have hmem : "Duration must be at least 1 minute(s)"
        ∈ (validateActivity ⟨some t, dist, 0, d⟩).errors := by
      rw [validate_errors_some, hdur dist hdist.ne']
      simp [List.mem_append]
    have hwarn : estimateDurationMsg
        ∈ (validateActivity ⟨some t, dist, 0, d⟩).warnings := by
      rw [validate_warnings_some]
      have ha : estimateDurationMsg ∈ asymmetryWarnings (jsToLower t) dist 0 := by
        simp [asymmetryWarnings, hdist]
      simp only [List.mem_append]
      exact Or.inr ha
    exact ⟨valid_eq_false_of_mem hmem, hmem, hwarn⟩
  · rintro ⟨ty, dk, dm, dt⟩ ha
    simp only at ha
    subst ha
    cases ty with
    | none => simp [validateActivity]
    | some t =>
        by_cases hdk : dk = 0
        · have h0 : durationErrors 0 dk = ["Either duration or distance must be provided"] := by
            norm_num [durationErrors, hdk]
          have hmem : "Either duration or distance must be provided"
              ∈ (validateActivity ⟨some t, dk, 0, dt⟩).errors := by
            rw [validate_errors_some, h0]
            simp [List.mem_append]
          exact List.ne_nil_of_mem hmem
        · have hmem : "Duration must be at least 1 minute(s)"
              ∈ (validateActivity ⟨some t, dk, 0, dt⟩).errors := by
            rw [validate_errors_some, hdur dk hdk]
            simp [List.mem_append]
          exact List.ne_nil_of_mem hmem

theorem zero_duration_rejected_witness :
    (validateActivity ⟨some "run", 5, 0, none⟩).valid = false
    ∧ (validateActivity ⟨some "hike", 0, 0, some DateParse.recent⟩).errors ≠ [] :=
  ⟨(zero_duration_rejected.1 "run" 5 none (by norm_num)).1,
   zero_duration_rejected.2 ⟨some "hike", 0, 0, some DateParse.recent⟩ rfl⟩

/-- C10: an absent (falsy) date field skips the whole date-validation block:
the result is identical to that of a present, in-range date, the date
section contributes no error and no warning, and an otherwise-valid
candidate with a missing date is accepted. -/
theorem missing_date_no_checks :
    (∀ (t : Option String) (dist dur : ℚ),
        validateActivity ⟨t, dist, dur, none⟩
          = validateActivity ⟨t, dist, dur, some DateParse.recent⟩)
    ∧ dateErrors none = [] ∧ dateWarnings none = []
    ∧ (validateActivity ⟨some "run", 5, 30, none⟩).valid = true := by
  refine ⟨?_, rfl, rfl, ?_⟩
  · intro t dist dur
    cases t with
    | none => rfl
    | some s => simp [validateActivity, dateErrors, dateWarnings]
  · simp only [validateActivity, jsToLower_run]
    norm_num [typeErrors, dateErrors, durationErrors, activityDurationErrors,
      distanceErrors, activityDistanceErrors, speedErrors,
      durationActivityMax, distanceActivityMax, speedMax, validTypes,
      durationMin, durationMax, distanceMin, distanceMax, jsToLower_run]
